import Mathlib

/-!
A verification development for the lovely-injector core: a shallow embedding of
crates/lovely-core/src/sys.rs and crates/lovely-android/src/lib.rs.

The embedded engine: the Lua 5.1 C API that sys.rs drives (lua_gettop, lua_settop,
lua_getfield, lua_setfield, lua_pushvalue, lua_pushcclosure, lua_call, lua_pcall,
lua_tolstring) is modelled as pure state transformers over a `LuaSt` record holding
the operand stack (index 1 at the list head, matching the Lua convention), a heap of
string-keyed tables, and the globals table reference.  These model the behaviour of
the same-named sys.rs wrapper functions once the LUA singleton is initialized; the
uninitialized (panicking) wrapper layer is embedded separately in namespace SysGen.
Chunk execution (external to this repository) is abstracted by an `Engine` record:
`eval` gives the result or error of running a compiled chunk, and `tostr` is the
engine's global tostring builtin.  Rust panics are modelled as the `.error` branch
of `Except LuaSt LuaSt`, carrying the state at the point of the panic.
-/

/-- Identifiers of the native (Rust) functions this repository registers as Lua
C closures.  The only such function in sys.rs is `lua_identity_closure`. -/
inductive NativeId where
  | identityClosure
deriving Repr, DecidableEq

/-- Identifiers of engine-provided builtins that the embedded code reaches through
the globals table.  `override_print` fetches the global `tostring` function. -/
inductive BuiltinId where
  | tostring
deriving Repr, DecidableEq

/-- Lua values, as far as the embedded code can observe them. -/
inductive LuaValue where
  | nil
  | boolean (b : Bool)
  | num (n : Int)
  | str (s : String)
  | tableRef (r : Nat)
  | chunk (chunkname : String) (src : String)
  | cclosure (fid : NativeId) (upvals : List LuaValue)
  | builtin (b : BuiltinId)
deriving Repr

/-- Observable calls into the external engine, recorded so that theorems can speak
about which arguments the embedded code passes across the FFI boundary. -/
inductive LuaEvent where
  | compile (buf : String) (len : Nat) (chunkname : String)
  | pcall (nargs : Int) (nresults : Int) (errfunc : Int)
deriving Repr

/-- The abstracted behaviour of the external engine: `eval src` is the outcome of
running the chunk compiled from `src` with zero arguments and one result, and
`tostr` is the engine's own global `tostring` stringification. -/
structure Engine where
  eval : String → Except LuaValue LuaValue
  tostr : LuaValue → String

/-- The interpreter state visible to the embedded code: the operand stack (Lua
index 1 at the head of the list), a heap of string-keyed tables addressed by
`tableRef`, the heap address of the globals table, the upvalues of the currently
running C closure (empty outside a closure activation), the emitted log lines,
and the recorded FFI events. -/
structure LuaSt where
  stack : List LuaValue
  heap : List (List (String × LuaValue))
  globalsRef : Nat
  upvals : List LuaValue
  logs : List String
  events : List LuaEvent
deriving Repr

def LUA_GLOBALSINDEX : Int := -10002
def LUA_TNIL : Int := 0
def LUA_TBOOLEAN : Int := 1

/-- Look up a key in a table (Lua tables give nil for absent keys). -/
def tblGet (t : List (String × LuaValue)) (k : String) : LuaValue :=
  match t.find? (fun p => p.1 = k) with
  | some p => p.2
  | none => LuaValue.nil

/-- Write a key in a table: the new binding shadows (and drops) any old one. -/
def tblSet (t : List (String × LuaValue)) (k : String) (v : LuaValue) :
    List (String × LuaValue) :=
  (k, v) :: t.filter (fun p => p.1 != k)

/-- The table stored at heap address `r`. -/
def heapTable (s : LuaSt) (r : Nat) : List (String × LuaValue) :=
  s.heap.getD r []

/-- Resolve a Lua stack index to a value: positive indices count from the bottom
(index 1 = head), negative ordinary indices count from the top, the pseudo-index
LUA_GLOBALSINDEX denotes the globals table, and pseudo-indices below it denote
the upvalues of the running C closure (upvalue i at LUA_GLOBALSINDEX - i). -/
def resolveIdx (s : LuaSt) (idx : Int) : LuaValue :=
  if idx = LUA_GLOBALSINDEX then LuaValue.tableRef s.globalsRef
  else if idx < LUA_GLOBALSINDEX then s.upvals.getD (LUA_GLOBALSINDEX - 1 - idx).toNat LuaValue.nil
  else if 0 < idx then s.stack.getD (idx.toNat - 1) LuaValue.nil
  else if idx < 0 then
    if (s.stack.length : Int) + idx < 0 then LuaValue.nil
    else s.stack.getD ((s.stack.length : Int) + idx).toNat LuaValue.nil
  else LuaValue.nil

/-- Model of lua_gettop: the current stack depth. -/
def lua_gettop (s : LuaSt) : Int :=
  s.stack.length

/-- Model of lua_settop: a nonnegative index truncates or nil-extends the stack to
that depth; a negative index sets the new top to depth + idx + 1 (settop(-2) pops
one value). -/
def lua_settop (s : LuaSt) (idx : Int) : LuaSt :=
  if 0 ≤ idx then
    { s with stack := s.stack.take idx.toNat ++
        List.replicate (idx.toNat - s.stack.length) LuaValue.nil }
  else
    { s with stack := s.stack.take ((s.stack.length : Int) + idx + 1).toNat }

/-- Model of lua_getfield: push t[k] where t is the table at the given index
(nil when the slot does not hold a table). -/
def lua_getfield (s : LuaSt) (idx : Int) (k : String) : LuaSt :=
  let v := match resolveIdx s idx with
    | LuaValue.tableRef r => tblGet (heapTable s r) k
    | _ => LuaValue.nil
  { s with stack := s.stack ++ [v] }

/-- Model of lua_setfield: pop the value v at the top and store t[k] := v where t
is the table at the given index (resolved with v still on the stack, per the C
API; a no-op on the heap when the slot does not hold a table). -/
def lua_setfield (s : LuaSt) (idx : Int) (k : String) : LuaSt :=
  match s.stack.getLast? with
  | none => s
  | some v =>
    let popped : LuaSt := { s with stack := s.stack.dropLast }
    match resolveIdx s idx with
    | LuaValue.tableRef r =>
        { popped with heap := popped.heap.set r (tblSet (heapTable popped r) k v) }
    | _ => popped

/-- Model of lua_pushvalue: push a copy of the value at the given index. -/
def lua_pushvalue (s : LuaSt) (idx : Int) : LuaSt :=
  { s with stack := s.stack ++ [resolveIdx s idx] }

/-- Model of lua_pushcclosure: pop the top n values (in stack order they become
upvalues 1..n) and push a C closure over them. -/
def lua_pushcclosure (s : LuaSt) (fid : NativeId) (n : Int) : LuaSt :=
  let k := n.toNat
  let ups := s.stack.drop (s.stack.length - k)
  { s with stack := s.stack.take (s.stack.length - k) ++ [LuaValue.cclosure fid ups] }

/-- Model of lua_tolstring at an index: the string value there together with its
byte length (only ever applied to string values in the embedded code, since the
tostring builtin always produces a string). -/
def lua_tolstring (s : LuaSt) (idx : Int) : String × Nat :=
  match resolveIdx s idx with
  | LuaValue.str t => (t, t.utf8ByteSize)
  | _ => ("", 0)

/-- Embedding of lua_identity_closure (sys.rs:191-196): push the value at
pseudo-index LUA_GLOBALSINDEX - 1 (the first upvalue) and return 1 result. -/
def lua_identity_closure (s : LuaSt) : LuaSt × Int :=
  (lua_pushvalue s (LUA_GLOBALSINDEX - 1), 1)

/-- Run a registered native function as a Lua call: a fresh activation whose stack
holds exactly the arguments, with the closure's upvalues reachable through their
pseudo-indices; the returned values are the top `nret` of the activation stack. -/
def runNative (s : LuaSt) (fid : NativeId) (ups args : List LuaValue) :
    LuaSt × List LuaValue :=
  let act : LuaSt := { s with stack := args, upvals := ups }
  let out := match fid with
    | NativeId.identityClosure => lua_identity_closure act
  let act2 := out.1
  let res := act2.stack.drop (act2.stack.length - out.2.toNat)
  ({ s with heap := act2.heap, logs := act2.logs, events := act2.events }, res)

/-- Adjust a result list to exactly `nresults` values (truncate or nil-pad). -/
def adjustResults (res : List LuaValue) (nresults : Int) : List LuaValue :=
  if nresults < 0 then res
  else res.take nresults.toNat ++ List.replicate (nresults.toNat - res.length) LuaValue.nil

/-- Model of lua_call: pop `nargs` arguments and the callable beneath them, run it,
and push `nresults` results.  The cases the embedded code exercises are the
engine's tostring builtin and registered C closures. -/
def lua_call (eng : Engine) (s : LuaSt) (nargs nresults : Int) : LuaSt :=
  let k := nargs.toNat
  let args := s.stack.drop (s.stack.length - k)
  let fv := s.stack.getD (s.stack.length - k - 1) LuaValue.nil
  let base := s.stack.take (s.stack.length - k - 1)
  match fv with
  | LuaValue.builtin BuiltinId.tostring =>
      { s with stack := base ++
          adjustResults [LuaValue.str (eng.tostr (args.getD 0 LuaValue.nil))] nresults }
  | LuaValue.cclosure fid ups =>
      let out := runNative s fid ups args
      { out.1 with stack := base ++ adjustResults out.2 nresults }
  | _ => { s with stack := base ++ adjustResults [LuaValue.nil] nresults }

/-- Model of lua_pcall as exercised by this codebase (nargs = 0, nresults = 1):
pop the chunk at the top and run it through the engine; on success push its one
result and return 0, on failure push the error object and return LUA_ERRRUN (2).
The call and its arguments are recorded as an event. -/
def lua_pcall (eng : Engine) (s : LuaSt) (nargs nresults errfunc : Int) :
    LuaSt × Int :=
  let s1 : LuaSt := { s with events := s.events ++ [LuaEvent.pcall nargs nresults errfunc] }
  match s1.stack.getLast? with
  | some (LuaValue.chunk _nm src) =>
      let base := s1.stack.dropLast
      match eng.eval src with
      | Except.ok v => ({ s1 with stack := base ++ [v] }, 0)
      | Except.error e => ({ s1 with stack := base ++ [e] }, 2)
  | _ =>
      ({ s1 with stack := s1.stack.dropLast ++ [LuaValue.str ("attempt to call a non-function")] }, 2)

/-- Whether a string contains an interior NUL byte, the condition under which
CString::new(..).unwrap() panics. -/
def hasNul (s : String) : Bool :=
  s.data.any (fun c => c = Char.ofNat 0)

/-- Canonical model of the trampolined compile entry (the luaL_loadbufferx-shaped
callback handed to load_module): push the chunk compiled from the buffer under the
given chunk name, recording the arguments it was invoked with, and return status 0. -/
def model_loadbufferx : LuaSt → String → Nat → String → LuaSt × UInt32 :=
  fun s buf len nm =>
    ({ s with stack := s.stack ++ [LuaValue.chunk nm buf],
              events := s.events ++ [LuaEvent.compile buf len nm] }, 0)

/-- Embedding of load_module (sys.rs:117-155).  The CString conversions panic on
interior NUL bytes (modelled as `.error` carrying the state at the panic); the
compile callback is a parameter, as in the source; on pcall success the single
result is wrapped into an identity closure and stored into the package.preload
table at the recorded stack position; the stack is truncated back to the entry
depth on every non-panicking path. -/
def load_module (eng : Engine)
    (lual_loadbufferx : LuaSt → String → Nat → String → LuaSt × UInt32)
    (s : LuaSt) (name buffer : String) : Except LuaSt LuaSt :=
  if hasNul buffer then Except.error s else
  let buf_len := buffer.utf8ByteSize
  let p_name := "@" ++ name
  if hasNul p_name then Except.error s else
  let stack_top := lua_gettop s
  let s1 := lua_getfield s LUA_GLOBALSINDEX ("package")
  let s2 := lua_getfield s1 (-1) ("preload")
  let field_index := lua_gettop s2
  let s3 := (lual_loadbufferx s2 buffer buf_len p_name).1
  let pc := lua_pcall eng s3 0 1 0
  let step : Except LuaSt LuaSt :=
    if pc.2 = 0 then
      let s5 := lua_pushcclosure pc.1 NativeId.identityClosure 1
      if hasNul name then Except.error s5
      else Except.ok (lua_setfield s5 field_index name)
    else Except.ok pc.1
  match step with
  | Except.error e => Except.error e
  | Except.ok s6 => Except.ok (lua_settop s6 stack_top)

/-- Embedding of the per-argument loop of override_print (sys.rs:164-179): for each
argument index i, fetch the global tostring, push a copy of argument i, call it
with one argument and one result, read the produced string, pop it, and append the
string to the output accumulator. -/
def override_print_go (eng : Engine) (s : LuaSt) (i : Nat) (fuel : Nat)
    (out : List String) : LuaSt × List String :=
  match fuel with
  | 0 => (s, out)
  | f + 1 =>
      let s1 := lua_getfield s LUA_GLOBALSINDEX ("tostring")
      let s2 := lua_pushvalue s1 (i : Int)
      let s3 := lua_call eng s2 1 1
      let t := (lua_tolstring s3 (-1)).1
      let s4 := lua_settop s3 (-2)
      override_print_go eng s4 (i + 1) f (out ++ [t])

/-- Embedding of override_print (sys.rs:160-185): stringify each of the argc
arguments through the engine's global tostring, join the strings with tabs, emit
one log line, and return 0 results. -/
def override_print (eng : Engine) (s : LuaSt) : LuaSt × Int :=
  let argc := s.stack.length
  let r := override_print_go eng s 1 argc []
  let msg := String.intercalate ("\t") r.2
  ({ r.1 with logs := r.1.logs ++ ["[G] " ++ msg] }, 0)

-- Sanity examples (engine and state fixtures used by the claim witnesses).

/-- A concrete engine for witnesses: every chunk evaluates to the number 1, and
tostring renders only the values the witnesses use. -/
def engW : Engine where
  eval := fun _ => Except.ok (LuaValue.num 1)
  tostr := fun v =>
    match v with
    | LuaValue.nil => "nil"
    | LuaValue.boolean b => if b then ("true") else ("false")
    | LuaValue.num _ => "1"
    | LuaValue.str t => t
    | _ => "value"

/-- A concrete engine whose chunks all fail with a string error object. -/
def engFail : Engine where
  eval := fun _ => Except.error (LuaValue.str ("boom"))
  tostr := fun _ => "value"

/-- A concrete well-formed state: globals = table 0 holding package = table 1,
package.preload = table 2 (empty). -/
def stW : LuaSt where
  stack := []
  heap := [[("package", LuaValue.tableRef 1)], [("preload", LuaValue.tableRef 2)], []]
  globalsRef := 0
  upvals := []
  logs := []
  events := []

example : lua_gettop stW = 0 := rfl

/-- The resolved symbol table (sys.rs LuaLib): one field per required ABI symbol.
Function pointers are modelled as abstract addresses (Nat). -/
structure LuaLibS where
  lua_call : Nat
  lua_pcall : Nat
  lua_getfield : Nat
  lua_setfield : Nat
  lua_gettop : Nat
  lua_settop : Nat
  lua_pushvalue : Nat
  lua_pushcclosure : Nat
  lua_tolstring : Nat
  lua_toboolean : Nat
  lua_topointer : Nat
  lua_type : Nat
  lua_typename : Nat
  lua_isstring : Nat
deriving Repr, DecidableEq

/-- A loaded dynamic library: its export table from symbol name to address. -/
def libGet (lib : List (String × Nat)) (sym : String) : Option Nat :=
  (lib.find? (fun p => p.1 = sym)).map (fun p => p.2)

/-- Embedding of LuaLib::from_library (sys.rs:69-86): every lookup is
`.get(..).unwrap()`, so the first missing symbol aborts construction (none =
panic); otherwise every field holds its resolved address. -/
def from_library (lib : List (String × Nat)) : Option LuaLibS :=
  match libGet lib ("lua_call") with
  | none => none
  | some f_call =>
  match libGet lib ("lua_pcall") with
  | none => none
  | some f_pcall =>
  match libGet lib ("lua_getfield") with
  | none => none
  | some f_getfield =>
  match libGet lib ("lua_setfield") with
  | none => none
  | some f_setfield =>
  match libGet lib ("lua_gettop") with
  | none => none
  | some f_gettop =>
  match libGet lib ("lua_settop") with
  | none => none
  | some f_settop =>
  match libGet lib ("lua_pushvalue") with
  | none => none
  | some f_pushvalue =>
  match libGet lib ("lua_pushcclosure") with
  | none => none
  | some f_pushcclosure =>
  match libGet lib ("lua_tolstring") with
  | none => none
  | some f_tolstring =>
  match libGet lib ("lua_toboolean") with
  | none => none
  | some f_toboolean =>
  match libGet lib ("lua_topointer") with
  | none => none
  | some f_topointer =>
  match libGet lib ("lua_type") with
  | none => none
  | some f_type =>
  match libGet lib ("lua_typename") with
  | none => none
  | some f_typename =>
  match libGet lib ("lua_isstring") with
  | none => none
  | some f_isstring =>
  some { lua_call := f_call, lua_pcall := f_pcall, lua_getfield := f_getfield,
         lua_setfield := f_setfield, lua_gettop := f_gettop, lua_settop := f_settop,
         lua_pushvalue := f_pushvalue, lua_pushcclosure := f_pushcclosure,
         lua_tolstring := f_tolstring, lua_toboolean := f_toboolean,
         lua_topointer := f_topointer, lua_type := f_type,
         lua_typename := f_typename, lua_isstring := f_isstring }

/-- The fixed set of ABI symbols LuaLib::from_library requires. -/
def requiredSymbols : List String :=
  ["lua_call", "lua_pcall", "lua_getfield", "lua_setfield", "lua_gettop",
   "lua_settop", "lua_pushvalue", "lua_pushcclosure", "lua_tolstring",
   "lua_toboolean", "lua_topointer", "lua_type", "lua_typename", "lua_isstring"]

/-- Outcomes of an initialization routine: normal return, a recoverable
Result::Err, or a Rust panic. -/
inductive InitOutcome where
  | ok
  | recoverableErr (msg : String)
  | fatalPanic (msg : String)
deriving Repr, DecidableEq

/-- Embedding of init_lua_library (sys.rs:90-112) acting on the LUA singleton:
a failed library open propagates as a recoverable Err; a missing symbol inside
from_library is an unwrap panic; an already-set LUA makes `LUA.set(..)` fail and
the `map_err(..)?` return the recoverable error "LUA already initialized",
leaving the previously installed value in place. -/
def init_lua_library (libraryOpen : Option (List (String × Nat)))
    (lua : Option LuaLibS) : InitOutcome × Option LuaLibS :=
  match libraryOpen with
  | none => (InitOutcome.recoverableErr ("library load failed"), lua)
  | some lib =>
    match from_library lib with
    | none => (InitOutcome.fatalPanic ("missing symbol"), lua)
    | some ll =>
      match lua with
      | some old => (InitOutcome.recoverableErr ("LUA already initialized"), some old)
      | none => (InitOutcome.ok, some ll)

/-- Modelled from the spec: the contents of the RuntimeSingleton (`Lovely` from
lovely-core's root module is not among the given sources) — the immutable Config
assembled by Bootstrap together with the installed-hook state (§3 Config,
RuntimeSingleton). -/
structure LovelyRT where
  dump_all : Bool
  vanilla : Bool
  mod_dir : Option String
deriving Repr, DecidableEq

/-- Embedding of the RUNTIME initialization step of JNI_OnLoad (lib.rs:67-69):
RUNTIME.set followed by unwrap_or_else — a second set is a panic and
the first value stays installed. -/
def jni_onload_set_runtime (runtime : Option LovelyRT) (rt : LovelyRT) :
    InitOutcome × Option LovelyRT :=
  match runtime with
  | some old => (InitOutcome.fatalPanic ("Failed to instantiate runtime."), some old)
  | none => (InitOutcome.ok, some rt)

/-- How the compile callback handed to the runtime reaches real compilation:
through the LUA symbol table re-resolved on every call (the recall_loadbufferx
wrapper of lib.rs:15-24), or through a trampoline pointer saved at hook-install
time. -/
inductive CompileCallback where
  | viaSymbolTable
  | viaSavedTrampoline (p : Nat)
deriving Repr, DecidableEq

/-- The observable wiring established by JNI_OnLoad. -/
structure AndroidBoot where
  runtime : Option LovelyRT
  savedTrampoline : Option Nat
  callback : CompileCallback
deriving Repr, DecidableEq

/-- Modelled from the spec (§4.4 HookInstaller; dobby_rs is an external crate):
installing the inline hook patches the target and returns the trampoline pointer
through which the original unpatched implementation remains callable. -/
def dobby_hook (trampolineOf : Nat → Nat) (target _replacement : Nat) : Nat :=
  trampolineOf target

/-- Embedding of the hook/runtime wiring of JNI_OnLoad (lib.rs:66-86): the
callback passed to the runtime is the recall_loadbufferx wrapper, which resolves
the compile symbol through the LUA table at each call, and the value returned by
`dobby_rs::hook(..)` is bound to `_` and dropped, so no trampoline pointer is
saved anywhere. -/
def jni_onload_boot (trampolineOf : Nat → Nat) (target replacement : Nat)
    (config : LovelyRT) : AndroidBoot :=
  let _tramp := dobby_hook trampolineOf target replacement
  { runtime := some config
    savedTrampoline := none
    callback := CompileCallback.viaSymbolTable }

namespace SysGen

/-- The symbol table as a record of callable functions, for the generated wrapper
layer (sys.rs generate! macro).  Argument and result types follow the C
signatures: state and pointer arguments are abstract addresses (Nat), c_int is Int,
void results are Unit. -/
structure LuaLibW where
  lua_call : Nat → Int → Int → Unit
  lua_pcall : Nat → Int → Int → Int → Int
  lua_getfield : Nat → Int → Nat → Unit
  lua_setfield : Nat → Int → Nat → Unit
  lua_gettop : Nat → Int
  lua_settop : Nat → Int → Unit
  lua_pushvalue : Nat → Int → Unit
  lua_pushcclosure : Nat → Nat → Int → Unit
  lua_tolstring : Nat → Int → Nat → Nat
  lua_toboolean : Nat → Int → Int
  lua_topointer : Nat → Int → Nat
  lua_type : Nat → Int → Int
  lua_typename : Nat → Int → Nat
  lua_isstring : Nat → Int → Int

/-- The panic message of every generated wrapper when LUA is unset. -/
def panicMsg : String := "Failed to access Lua lib defs"

/-- Embedding of the generated free wrapper lua_call (sys.rs:37-44): panic when
the LUA singleton is unset, otherwise delegate to the resolved pointer. -/
def lua_call (g : Option LuaLibW) (state : Nat) (nargs nresults : Int) :
    Except String Unit :=
  match g with
  | none => Except.error panicMsg
  | some lua => Except.ok (lua.lua_call state nargs nresults)

/-- Embedding of the generated free wrapper lua_pcall. -/
def lua_pcall (g : Option LuaLibW) (state : Nat) (nargs nresults errfunc : Int) :
    Except String Int :=
  match g with
  | none => Except.error panicMsg
  | some lua => Except.ok (lua.lua_pcall state nargs nresults errfunc)

/-- Embedding of the generated free wrapper lua_getfield. -/
def lua_getfield (g : Option LuaLibW) (state : Nat) (index : Int) (k : Nat) :
    Except String Unit :=
  match g with
  | none => Except.error panicMsg
  | some lua => Except.ok (lua.lua_getfield state index k)

/-- Embedding of the generated free wrapper lua_setfield. -/
def lua_setfield (g : Option LuaLibW) (state : Nat) (index : Int) (k : Nat) :
    Except String Unit :=
  match g with
  | none => Except.error panicMsg
  | some lua => Except.ok (lua.lua_setfield state index k)

/-- Embedding of the generated free wrapper lua_gettop. -/
def lua_gettop (g : Option LuaLibW) (state : Nat) : Except String Int :=
  match g with
  | none => Except.error panicMsg
  | some lua => Except.ok (lua.lua_gettop state)

/-- Embedding of the generated free wrapper lua_settop. -/
def lua_settop (g : Option LuaLibW) (state : Nat) (index : Int) :
    Except String Unit :=
  match g with
  | none => Except.error panicMsg
  | some lua => Except.ok (lua.lua_settop state index)

/-- Embedding of the generated free wrapper lua_pushvalue. -/
def lua_pushvalue (g : Option LuaLibW) (state : Nat) (index : Int) :
    Except String Unit :=
  match g with
  | none => Except.error panicMsg
  | some lua => Except.ok (lua.lua_pushvalue state index)

/-- Embedding of the generated free wrapper lua_pushcclosure. -/
def lua_pushcclosure (g : Option LuaLibW) (state : Nat) (f : Nat) (n : Int) :
    Except String Unit :=
  match g with
  | none => Except.error panicMsg
  | some lua => Except.ok (lua.lua_pushcclosure state f n)

/-- Embedding of the generated free wrapper lua_tolstring. -/
def lua_tolstring (g : Option LuaLibW) (state : Nat) (index : Int) (len : Nat) :
    Except String Nat :=
  match g with
  | none => Except.error panicMsg
  | some lua => Except.ok (lua.lua_tolstring state index len)

/-- Embedding of the generated free wrapper lua_toboolean. -/
def lua_toboolean (g : Option LuaLibW) (state : Nat) (index : Int) :
    Except String Int :=
  match g with
  | none => Except.error panicMsg
  | some lua => Except.ok (lua.lua_toboolean state index)

/-- Embedding of the generated free wrapper lua_topointer. -/
def lua_topointer (g : Option LuaLibW) (state : Nat) (index : Int) :
    Except String Nat :=
  match g with
  | none => Except.error panicMsg
  | some lua => Except.ok (lua.lua_topointer state index)

/-- Embedding of the generated free wrapper lua_type. -/
def lua_type (g : Option LuaLibW) (state : Nat) (index : Int) :
    Except String Int :=
  match g with
  | none => Except.error panicMsg
  | some lua => Except.ok (lua.lua_type state index)

/-- Embedding of the generated free wrapper lua_typename. -/
def lua_typename (g : Option LuaLibW) (state : Nat) (tp : Int) :
    Except String Nat :=
  match g with
  | none => Except.error panicMsg
  | some lua => Except.ok (lua.lua_typename state tp)

/-- Embedding of the generated free wrapper lua_isstring. -/
def lua_isstring (g : Option LuaLibW) (state : Nat) (index : Int) :
    Except String Int :=
  match g with
  | none => Except.error panicMsg
  | some lua => Except.ok (lua.lua_isstring state index)

end SysGen

-- Helper lemmas about the stack and table models.

lemma getD_append_cons {α : Type} (l : List α) (x : α) (r : List α) (d : α) :
    (l ++ x :: r).getD l.length d = x := by
  induction l with
  | nil => rfl
  | cons a t ih => simpa using ih

lemma getD_append_left {α : Type} (l r : List α) (n : Nat) (d : α) (h : n < l.length) :
    (l ++ r).getD n d = l.getD n d := by
  simp [List.getD, List.getElem?_append, h]

lemma settop_gettop (s : LuaSt) (n : Int) (h : 0 ≤ n) :
    lua_gettop (lua_settop s n) = n := by
  simp only [lua_gettop, lua_settop, if_pos h, List.length_append, List.length_take,
    List.length_replicate]
  omega

lemma settop_restore (s : LuaSt) (l r : List LuaValue) (h : s.stack = l ++ r) :
    lua_settop s (l.length : Int) = { s with stack := l } := by
  have h0 : (0 : Int) ≤ (l.length : Int) := Int.ofNat_nonneg _
  simp only [lua_settop, if_pos h0, h, Int.toNat_ofNat, List.take_left]
  have hz : l.length - (l ++ r).length = 0 := by
    simp [List.length_append]
  rw [hz]
  simp

lemma hasNul_append (a b : String) : hasNul (a ++ b) = (hasNul a || hasNul b) := by
  simp [hasNul, String.data_append]

lemma tblGet_tblSet (t : List (String × LuaValue)) (k : String) (v : LuaValue) :
    tblGet (tblSet t k v) k = v := by
  simp [tblGet, tblSet, List.find?]

/-- Claim C9: load_module is not total over its string inputs — when the name or the
buffer contains an interior NUL byte, the CString conversions panic before any
operand-stack mutation, leaving the interpreter state untouched (the panic carries
the unmodified entry state). -/
theorem load_module_nul_panics (eng : Engine)
    (f : LuaSt → String → Nat → String → LuaSt × UInt32) (s : LuaSt)
    (name buffer : String)
    (h : hasNul buffer = true ∨ hasNul name = true) :
    load_module eng f s name buffer = Except.error s := by
  unfold load_module
  rcases h with h | h
  · simp [h]
  · have hp : hasNul ("@" ++ name) = true := by
      rw [hasNul_append, h]
      simp
    by_cases hb : hasNul buffer
    · simp [hb]
    · simp [hb, hp]

/-- Witness for load_module_nul_panics at a concrete NUL-carrying buffer. -/
theorem load_module_nul_panics_witness :
    (hasNul ("bad\x00src") = true ∨ hasNul ("mod_a") = true) ∧
    load_module engW model_loadbufferx stW ("mod_a") ("bad\x00src") = Except.error stW :=
  ⟨Or.inl rfl,
   load_module_nul_panics engW model_loadbufferx stW ("mod_a") ("bad\x00src") (Or.inl rfl)⟩

/-- Claim C1: whatever the compile callback does and whether the protected call
succeeds or fails, every normal return of load_module restores the operand-stack
depth recorded at entry: the depth after the call equals the depth before it. -/
theorem load_module_stack_balance (eng : Engine)
    (f : LuaSt → String → Nat → String → LuaSt × UInt32) (s : LuaSt)
    (name buffer : String) (s' : LuaSt)
    (h : load_module eng f s name buffer = Except.ok s') :
    lua_gettop s' = lua_gettop s := by
  have hlen : (0 : Int) ≤ lua_gettop s := by
    simp [lua_gettop]
  unfold load_module at h
  by_cases hb : hasNul buffer
  · simp [hb] at h
  by_cases hn : hasNul ("@" ++ name)
  · simp [hb, hn] at h
  simp only [hb, hn, Bool.false_eq_true, if_false] at h
  split at h
  · simp at h
  · rw [Except.ok.injEq] at h
    rw [← h]
    exact settop_gettop _ _ hlen

/-- The state produced by the witness run of load_module on stW with name mod_a
and buffer return 1 under engW. -/
def stW1 : LuaSt where
  stack := []
  heap := [[("package", LuaValue.tableRef 1)], [("preload", LuaValue.tableRef 2)],
           [("mod_a", LuaValue.cclosure NativeId.identityClosure [LuaValue.num 1])]]
  globalsRef := 0
  upvals := []
  logs := []
  events := [LuaEvent.compile ("return 1") 8 ("@mod_a"), LuaEvent.pcall 0 1 0]

/-- Witness for load_module_stack_balance at a concrete successful injection. -/
theorem load_module_stack_balance_witness :
    load_module engW model_loadbufferx stW ("mod_a") ("return 1") = Except.ok stW1 ∧
    lua_gettop stW1 = lua_gettop stW :=
  ⟨rfl, load_module_stack_balance engW model_loadbufferx stW ("mod_a") ("return 1") stW1 rfl⟩

/-- Claim C5 evidence: the hook/runtime wiring of JNI_OnLoad never saves the
trampoline returned by the hook installation (the binding is discarded), and the
compile callback handed to the runtime resolves through the LUA symbol table on
every call rather than through a captured original-implementation pointer. -/
theorem jni_onload_discards_trampoline (trampolineOf : Nat → Nat)
    (target replacement : Nat) (config : LovelyRT) :
    (jni_onload_boot trampolineOf target replacement config).savedTrampoline = none ∧
    (jni_onload_boot trampolineOf target replacement config).callback =
      CompileCallback.viaSymbolTable :=
  ⟨rfl, rfl⟩

/-- Claim C10: every generated free wrapper over the symbol table panics with
message "Failed to access Lua lib defs" when invoked before the LUA singleton is
set, and after initialization delegates to the resolved function pointer with its
arguments passed through unchanged. -/
theorem sysgen_wrapper_delegation (lib : SysGen.LuaLibW) (st k f pl : Nat)
    (a b e tp : Int) :
    (SysGen.lua_call none st a b = Except.error ("Failed to access Lua lib defs") ∧
     SysGen.lua_call (some lib) st a b = Except.ok (lib.lua_call st a b)) ∧
    (SysGen.lua_pcall none st a b e = Except.error ("Failed to access Lua lib defs") ∧
     SysGen.lua_pcall (some lib) st a b e = Except.ok (lib.lua_pcall st a b e)) ∧
    (SysGen.lua_getfield none st a k = Except.error ("Failed to access Lua lib defs") ∧
     SysGen.lua_getfield (some lib) st a k = Except.ok (lib.lua_getfield st a k)) ∧
    (SysGen.lua_setfield none st a k = Except.error ("Failed to access Lua lib defs") ∧
     SysGen.lua_setfield (some lib) st a k = Except.ok (lib.lua_setfield st a k)) ∧
    (SysGen.lua_gettop none st = Except.error ("Failed to access Lua lib defs") ∧
     SysGen.lua_gettop (some lib) st = Except.ok (lib.lua_gettop st)) ∧
    (SysGen.lua_settop none st a = Except.error ("Failed to access Lua lib defs") ∧
     SysGen.lua_settop (some lib) st a = Except.ok (lib.lua_settop st a)) ∧
    (SysGen.lua_pushvalue none st a = Except.error ("Failed to access Lua lib defs") ∧
     SysGen.lua_pushvalue (some lib) st a = Except.ok (lib.lua_pushvalue st a)) ∧
    (SysGen.lua_pushcclosure none st f a = Except.error ("Failed to access Lua lib defs") ∧
     SysGen.lua_pushcclosure (some lib) st f a = Except.ok (lib.lua_pushcclosure st f a)) ∧
    (SysGen.lua_tolstring none st a pl = Except.error ("Failed to access Lua lib defs") ∧
     SysGen.lua_tolstring (some lib) st a pl = Except.ok (lib.lua_tolstring st a pl)) ∧
    (SysGen.lua_toboolean none st a = Except.error ("Failed to access Lua lib defs") ∧
     SysGen.lua_toboolean (some lib) st a = Except.ok (lib.lua_toboolean st a)) ∧
    (SysGen.lua_topointer none st a = Except.error ("Failed to access Lua lib defs") ∧
     SysGen.lua_topointer (some lib) st a = Except.ok (lib.lua_topointer st a)) ∧
    (SysGen.lua_type none st a = Except.error ("Failed to access Lua lib defs") ∧
     SysGen.lua_type (some lib) st a = Except.ok (lib.lua_type st a)) ∧
    (SysGen.lua_typename none st tp = Except.error ("Failed to access Lua lib defs") ∧
     SysGen.lua_typename (some lib) st tp = Except.ok (lib.lua_typename st tp)) ∧
    (SysGen.lua_isstring none st a = Except.error ("Failed to access Lua lib defs") ∧
     SysGen.lua_isstring (some lib) st a = Except.ok (lib.lua_isstring st a)) :=
  ⟨⟨rfl, rfl⟩, ⟨rfl, rfl⟩, ⟨rfl, rfl⟩, ⟨rfl, rfl⟩, ⟨rfl, rfl⟩, ⟨rfl, rfl⟩,
   ⟨rfl, rfl⟩, ⟨rfl, rfl⟩, ⟨rfl, rfl⟩, ⟨rfl, rfl⟩, ⟨rfl, rfl⟩, ⟨rfl, rfl⟩,
   ⟨rfl, rfl⟩, ⟨rfl, rfl⟩⟩

/-- A concrete export table with every required symbol present. -/
def fullLib : List (String × Nat) :=
  [("lua_call", 1), ("lua_pcall", 2), ("lua_getfield", 3), ("lua_setfield", 4),
   ("lua_gettop", 5), ("lua_settop", 6), ("lua_pushvalue", 7), ("lua_pushcclosure", 8),
   ("lua_tolstring", 9), ("lua_toboolean", 10), ("lua_topointer", 11), ("lua_type", 12),
   ("lua_typename", 13), ("lua_isstring", 14)]

/-- The symbol table resolved from fullLib. -/
def fullTab : LuaLibS :=
  ⟨1, 2, 3, 4, 5, 6, 7, 8, 9, 10, 11, 12, 13, 14⟩

/-- Claim C4 counterexample: a second init_lua_library call in the same process
is NOT fatal — it returns the recoverable error "LUA already initialized"
(Result::Err, via map_err and the question-mark operator), leaving the first
call's installed LUA value intact; the claim requires both init routines to be
fatal on a second call. -/
theorem init_lua_library_second_call_recoverable_cex :
    init_lua_library (some fullLib) (some fullTab) =
      (InitOutcome.recoverableErr ("LUA already initialized"), some fullTab) := by
  decide

/-- Claim C4 (amended): a second RUNTIME initialization in JNI_OnLoad is fatal
(panic) and leaves the first runtime intact, while a second init_lua_library call
is recoverable — it returns Err("LUA already initialized") — and likewise leaves
the LUA singleton installed by the first call intact. -/
theorem second_init_behavior (rt old : LovelyRT) (lib : List (String × Nat))
    (g ll : LuaLibS) (h : from_library lib = some ll) :
    jni_onload_set_runtime (some old) rt =
      (InitOutcome.fatalPanic ("Failed to instantiate runtime."), some old) ∧
    init_lua_library (some lib) (some g) =
      (InitOutcome.recoverableErr ("LUA already initialized"), some g) := by
  refine ⟨rfl, ?_⟩
  simp [init_lua_library, h]

/-- Witness for second_init_behavior at concrete runtimes and the full library. -/
theorem second_init_behavior_witness :
    from_library fullLib = some fullTab ∧
    (jni_onload_set_runtime (some ⟨false, false, none⟩) ⟨true, true, none⟩ =
       (InitOutcome.fatalPanic ("Failed to instantiate runtime."), some ⟨false, false, none⟩) ∧
     init_lua_library (some fullLib) (some fullTab) =
       (InitOutcome.recoverableErr ("LUA already initialized"), some fullTab)) :=
  ⟨by decide, second_init_behavior ⟨true, true, none⟩ ⟨false, false, none⟩ fullLib
    fullTab fullTab (by decide)⟩

/-- Claim C8: symbol-table construction is all-or-nothing — from_library succeeds
exactly when every required ABI symbol resolves (any missing symbol aborts the
construction), and a constructed table has every function-pointer field equal to
its resolved address. -/
theorem from_library_all_or_nothing (lib : List (String × Nat)) :
    ((from_library lib).isSome ↔ ∀ sym ∈ requiredSymbols, (libGet lib sym).isSome) ∧
    (∀ t, from_library lib = some t →
      libGet lib ("lua_call") = some t.lua_call ∧
      libGet lib ("lua_pcall") = some t.lua_pcall ∧
      libGet lib ("lua_getfield") = some t.lua_getfield ∧
      libGet lib ("lua_setfield") = some t.lua_setfield ∧
      libGet lib ("lua_gettop") = some t.lua_gettop ∧
      libGet lib ("lua_settop") = some t.lua_settop ∧
      libGet lib ("lua_pushvalue") = some t.lua_pushvalue ∧
      libGet lib ("lua_pushcclosure") = some t.lua_pushcclosure ∧
      libGet lib ("lua_tolstring") = some t.lua_tolstring ∧
      libGet lib ("lua_toboolean") = some t.lua_toboolean ∧
      libGet lib ("lua_topointer") = some t.lua_topointer ∧
      libGet lib ("lua_type") = some t.lua_type ∧
      libGet lib ("lua_typename") = some t.lua_typename ∧
      libGet lib ("lua_isstring") = some t.lua_isstring) := by
  unfold from_library
  simp only [requiredSymbols, List.mem_cons, List.not_mem_nil, or_false,
    forall_eq_or_imp, forall_eq]
  cases h1 : libGet lib ("lua_call") with
  | none => simp [h1]
  | some v1 =>
  cases h2 : libGet lib ("lua_pcall") with
  | none => simp [h1, h2]
  | some v2 =>
  cases h3 : libGet lib ("lua_getfield") with
  | none => simp [h1, h2, h3]
  | some v3 =>
  cases h4 : libGet lib ("lua_setfield") with
  | none => simp [h1, h2, h3, h4]
  | some v4 =>
  cases h5 : libGet lib ("lua_gettop") with
  | none => simp [h1, h2, h3, h4, h5]
  | some v5 =>
  cases h6 : libGet lib ("lua_settop") with
  | none => simp [h1, h2, h3, h4, h5, h6]
  | some v6 =>
  cases h7 : libGet lib ("lua_pushvalue") with
  | none => simp [h1, h2, h3, h4, h5, h6, h7]
  | some v7 =>
  cases h8 : libGet lib ("lua_pushcclosure") with
  | none => simp [h1, h2, h3, h4, h5, h6, h7, h8]
  | some v8 =>
  cases h9 : libGet lib ("lua_tolstring") with
  | none => simp [h1, h2, h3, h4, h5, h6, h7, h8, h9]
  | some v9 =>
  cases h10 : libGet lib ("lua_toboolean") with
  | none => simp [h1, h2, h3, h4, h5, h6, h7, h8, h9, h10]
  | some v10 =>
  cases h11 : libGet lib ("lua_topointer") with
  | none => simp [h1, h2, h3, h4, h5, h6, h7, h8, h9, h10, h11]
  | some v11 =>
  cases h12 : libGet lib ("lua_type") with
  | none => simp [h1, h2, h3, h4, h5, h6, h7, h8, h9, h10, h11, h12]
  | some v12 =>
  cases h13 : libGet lib ("lua_typename") with
  | none => simp [h1, h2, h3, h4, h5, h6, h7, h8, h9, h10, h11, h12, h13]
  | some v13 =>
  cases h14 : libGet lib ("lua_isstring") with
  | none => simp [h1, h2, h3, h4, h5, h6, h7, h8, h9, h10, h11, h12, h13, h14]
  | some v14 =>
  refine ⟨by simp, ?_⟩
  intro t ht
  rw [Option.some.injEq] at ht
  rw [← ht]
  simp

/-- Witness for from_library_all_or_nothing at the full concrete library. -/
theorem from_library_all_or_nothing_witness :
    from_library fullLib = some fullTab ∧
    libGet fullLib ("lua_call") = some fullTab.lua_call :=
  ⟨by decide, ((from_library_all_or_nothing fullLib).2 fullTab (by decide)).1⟩

lemma getfield_shape (s : LuaSt) (idx : Int) (k : String) :
    ∃ v, lua_getfield s idx k = { s with stack := s.stack ++ [v] } :=
  ⟨_, rfl⟩

lemma load_module_failure_eval (eng : Engine) (s : LuaSt) (name buffer : String)
    (e : LuaValue)
    (hb : hasNul buffer = false) (hn : hasNul name = false)
    (he : eng.eval buffer = Except.error e) :
    load_module eng model_loadbufferx s name buffer =
      Except.ok { s with events := s.events ++
        [LuaEvent.compile buffer buffer.utf8ByteSize ("@" ++ name), LuaEvent.pcall 0 1 0] } := by
  have hpn : hasNul ("@" ++ name) = false := by
    rw [hasNul_append, hn]
    rfl
  obtain ⟨v1, hv1⟩ := getfield_shape s LUA_GLOBALSINDEX ("package")
  obtain ⟨v2, hv2⟩ := getfield_shape { s with stack := s.stack ++ [v1] } (-1) ("preload")
  simp only [load_module, hb, hpn, Bool.false_eq_true, if_false, hv1, hv2]
  simp only [model_loadbufferx, lua_pcall, lua_gettop]
  simp only [List.getLast?_concat, List.dropLast_concat, he]
  simp [lua_settop, Nat.sub_self_add, List.take_left]

lemma lua_setfield_spec (s : LuaSt) (n q : Nat) (w : LuaValue) (k : String)
    (hlast : s.stack.getLast? = some w)
    (hres : s.stack.getD n LuaValue.nil = LuaValue.tableRef q) :
    lua_setfield s ((n + 1 : Nat) : Int) k =
      { s with stack := s.stack.dropLast,
               heap := s.heap.set q (tblSet (heapTable s q) k w) } := by
  have hr : resolveIdx s ((n + 1 : Nat) : Int) = LuaValue.tableRef q := by
    rw [resolveIdx, if_neg (by simp only [LUA_GLOBALSINDEX]; omega),
        if_neg (by simp only [LUA_GLOBALSINDEX]; omega), if_pos (by omega)]
    have ht : (((n + 1 : Nat) : Int)).toNat - 1 = n := by omega
    rw [ht, hres]
  unfold lua_setfield
  simp only [hlast, hr]
  simp [heapTable]

lemma load_module_success_eval (eng : Engine) (s : LuaSt) (name buffer : String)
    (p q : Nat) (v : LuaValue)
    (hb : hasNul buffer = false) (hn : hasNul name = false)
    (hp : tblGet (heapTable s s.globalsRef) ("package") = LuaValue.tableRef p)
    (hq : tblGet (heapTable s p) ("preload") = LuaValue.tableRef q)
    (he : eng.eval buffer = Except.ok v) :
    load_module eng model_loadbufferx s name buffer =
      Except.ok { s with
        heap := s.heap.set q (tblSet (heapTable s q) name
          (LuaValue.cclosure NativeId.identityClosure [v])),
        events := s.events ++ [LuaEvent.compile buffer buffer.utf8ByteSize ("@" ++ name),
                               LuaEvent.pcall 0 1 0] } := by
  have hpn : hasNul ("@" ++ name) = false := by
    rw [hasNul_append, hn]
    rfl
  have hv1 : lua_getfield s LUA_GLOBALSINDEX ("package") =
      { s with stack := s.stack ++ [LuaValue.tableRef p] } := by
    simp [lua_getfield, resolveIdx, hp]
  have hv2 : lua_getfield { s with stack := s.stack ++ [LuaValue.tableRef p] }
      (-1) ("preload") =
      { s with stack := s.stack ++ [LuaValue.tableRef p, LuaValue.tableRef q] } := by
    simp [lua_getfield, resolveIdx, LUA_GLOBALSINDEX, heapTable]
    rw [if_neg (by omega : ¬ ((s.stack.length : Int) < 0))]
    simpa [heapTable, List.getD] using hq
  simp only [load_module, hb, hpn, Bool.false_eq_true, if_false, hv1, hv2]
  simp only [model_loadbufferx, lua_pcall, lua_gettop]
  simp only [List.getLast?_concat, List.dropLast_concat, he]
  simp only [hn, Bool.false_eq_true, if_false, lua_pushcclosure]
  have hlen3 : (s.stack ++ [LuaValue.tableRef p, LuaValue.tableRef q] ++ [v]).length - Int.toNat 1
      = (s.stack ++ [LuaValue.tableRef p, LuaValue.tableRef q]).length := by
    simp
  rw [hlen3, List.take_left, List.drop_left]
  simp only [if_true]
  have hgd : (s.stack ++ [LuaValue.tableRef p, LuaValue.tableRef q] ++
      [LuaValue.cclosure NativeId.identityClosure [v]]).getD (s.stack.length + 1)
      LuaValue.nil = LuaValue.tableRef q := by
    have h1 : s.stack ++ [LuaValue.tableRef p, LuaValue.tableRef q] ++
        [LuaValue.cclosure NativeId.identityClosure [v]] =
        (s.stack ++ [LuaValue.tableRef p]) ++ (LuaValue.tableRef q ::
          [LuaValue.cclosure NativeId.identityClosure [v]]) := by simp
    rw [h1]
    have h2 := getD_append_cons (s.stack ++ [LuaValue.tableRef p])
      (LuaValue.tableRef q) [LuaValue.cclosure NativeId.identityClosure [v]] LuaValue.nil
    simpa using h2
  have hidx : (((s.stack ++ [LuaValue.tableRef p, LuaValue.tableRef q]).length : Nat) : Int)
      = (((s.stack.length + 1) + 1 : Nat) : Int) := by
    push_cast [List.length_append, List.length_cons, List.length_nil]
    omega
  rw [hidx, lua_setfield_spec _ (s.stack.length + 1) q _ name (List.getLast?_concat _) hgd]
  simp only [List.dropLast_concat]
  rw [settop_restore _ s.stack [LuaValue.tableRef p, LuaValue.tableRef q] (by simp)]
  simp [heapTable]

lemma settop_events (s : LuaSt) (n : Int) : (lua_settop s n).events = s.events := by
  unfold lua_settop
  split <;> rfl

lemma setfield_events (s : LuaSt) (i : Int) (k : String) :
    (lua_setfield s i k).events = s.events := by
  unfold lua_setfield
  split
  · rfl
  · split <;> rfl

lemma pushcclosure_events (s : LuaSt) (fid : NativeId) (n : Int) :
    (lua_pushcclosure s fid n).events = s.events :=
  rfl

/-- Claim C2: when the protected call fails, load_module does not write to the
package.preload table at all — the heap is left exactly as it was (a pre-existing
entry stays unchanged and no new entry appears) and the error object is discarded
by the final stack truncation, which restores the entry stack. -/
theorem load_module_failure_no_preload_write (eng : Engine) (s : LuaSt)
    (name buffer : String) (e : LuaValue) (s' : LuaSt)
    (he : eng.eval buffer = Except.error e)
    (h : load_module eng model_loadbufferx s name buffer = Except.ok s') :
    s'.heap = s.heap ∧ s'.stack = s.stack := by
  by_cases hb : hasNul buffer
  · simp [load_module, hb] at h
  by_cases hn : hasNul name
  · have hpn : hasNul ("@" ++ name) = true := by
      rw [hasNul_append, hn]
      simp
    simp [load_module, hb, hpn] at h
  · rw [load_module_failure_eval eng s name buffer e (by simpa using hb)
      (by simpa using hn) he] at h
    rw [Except.ok.injEq] at h
    rw [← h]
    exact ⟨rfl, rfl⟩

/-- The state produced by the witness run of load_module on stW with name mod_b
and failing buffer bad under engFail. -/
def stW2 : LuaSt where
  stack := []
  heap := [[("package", LuaValue.tableRef 1)], [("preload", LuaValue.tableRef 2)], []]
  globalsRef := 0
  upvals := []
  logs := []
  events := [LuaEvent.compile ("bad") 3 ("@mod_b"), LuaEvent.pcall 0 1 0]

/-- Witness for load_module_failure_no_preload_write at a concrete failing
injection. -/
theorem load_module_failure_no_preload_write_witness :
    (engFail.eval ("bad") = Except.error (LuaValue.str ("boom")) ∧
     load_module engFail model_loadbufferx stW ("mod_b") ("bad") = Except.ok stW2) ∧
    (stW2.heap = stW.heap ∧ stW2.stack = stW.stack) :=
  ⟨⟨rfl, rfl⟩,
   load_module_failure_no_preload_write engFail stW ("mod_b") ("bad")
     (LuaValue.str ("boom")) stW2 rfl rfl⟩

/-- Claim C6: load_module invokes the supplied compile callback with the given
source buffer, its byte length, and the display name "@" ++ chunk_name, and then
performs the protected call with exactly zero arguments, one expected result and
no error handler — recorded as the event sequence compile(buffer, len, @name)
followed by pcall(0, 1, 0), for success and failure alike. -/
theorem load_module_compile_and_pcall_args (eng : Engine) (s : LuaSt)
    (name buffer : String)
    (hb : hasNul buffer = false) (hn : hasNul name = false) :
    ((load_module eng model_loadbufferx s name buffer).toOption.map
        (fun t => t.events)) =
      some (s.events ++ [LuaEvent.compile buffer buffer.utf8ByteSize ("@" ++ name),
                         LuaEvent.pcall 0 1 0]) := by
  have hpn : hasNul ("@" ++ name) = false := by
    rw [hasNul_append, hn]
    rfl
  obtain ⟨v1, hv1⟩ := getfield_shape s LUA_GLOBALSINDEX ("package")
  obtain ⟨v2, hv2⟩ := getfield_shape { s with stack := s.stack ++ [v1] } (-1) ("preload")
  simp only [load_module, hb, hpn, hn, Bool.false_eq_true, if_false, hv1, hv2]
  simp only [model_loadbufferx, lua_pcall, lua_gettop]
  simp only [List.getLast?_concat, List.dropLast_concat]
  cases hev : eng.eval buffer with
  | ok v => simp [hev, Except.toOption, settop_events, setfield_events,
      pushcclosure_events]
  | error e => simp [hev, Except.toOption, settop_events]

/-- Witness for load_module_compile_and_pcall_args at a concrete injection. -/
theorem load_module_compile_and_pcall_args_witness :
    (hasNul ("return 1") = false ∧ hasNul ("mod_a") = false) ∧
    ((load_module engW model_loadbufferx stW ("mod_a") ("return 1")).toOption.map
        (fun t => t.events)) =
      some ([LuaEvent.compile ("return 1") 8 ("@" ++ "mod_a"), LuaEvent.pcall 0 1 0]) :=
  ⟨⟨rfl, rfl⟩,
   load_module_compile_and_pcall_args engW stW ("mod_a") ("return 1") rfl rfl⟩

/-- Claim C3: on a successful protected call, load_module registers under the
chunk name a native closure over lua_identity_closure capturing the single pcall
result as its sole upvalue; looking the name up in the preload table yields that
closure, and every later invocation of it (on any state, with any arguments,
any number of times) returns the captured value unchanged and leaves the state
untouched. -/
theorem load_module_success_registers_identity (eng : Engine) (s : LuaSt)
    (name buffer : String) (p q : Nat) (v : LuaValue)
    (hb : hasNul buffer = false) (hn : hasNul name = false)
    (hp : tblGet (heapTable s s.globalsRef) ("package") = LuaValue.tableRef p)
    (hq : tblGet (heapTable s p) ("preload") = LuaValue.tableRef q)
    (he : eng.eval buffer = Except.ok v) :
    load_module eng model_loadbufferx s name buffer =
      Except.ok { s with
        heap := s.heap.set q (tblSet (heapTable s q) name
          (LuaValue.cclosure NativeId.identityClosure [v])),
        events := s.events ++ [LuaEvent.compile buffer buffer.utf8ByteSize ("@" ++ name),
                               LuaEvent.pcall 0 1 0] } ∧
    tblGet (tblSet (heapTable s q) name (LuaValue.cclosure NativeId.identityClosure [v]))
      name = LuaValue.cclosure NativeId.identityClosure [v] ∧
    (∀ (t : LuaSt) (args : List LuaValue),
      runNative t NativeId.identityClosure [v] args = (t, [v])) := by
  refine ⟨load_module_success_eval eng s name buffer p q v hb hn hp hq he,
          tblGet_tblSet _ _ _, ?_⟩
  intro t args
  simp [runNative, lua_identity_closure, lua_pushvalue, resolveIdx, LUA_GLOBALSINDEX,
    List.drop_left]

/-- Witness for load_module_success_registers_identity at a concrete successful
injection on stW. -/
theorem load_module_success_registers_identity_witness :
    (engW.eval ("return 1") = Except.ok (LuaValue.num 1) ∧
     tblGet (heapTable stW stW.globalsRef) ("package") = LuaValue.tableRef 1 ∧
     tblGet (heapTable stW 1) ("preload") = LuaValue.tableRef 2) ∧
    (load_module engW model_loadbufferx stW ("mod_a") ("return 1") =
       Except.ok { stW with
         heap := stW.heap.set 2 (tblSet (heapTable stW 2) ("mod_a")
           (LuaValue.cclosure NativeId.identityClosure [LuaValue.num 1])),
         events := stW.events ++ [LuaEvent.compile ("return 1")
           (String.utf8ByteSize ("return 1")) ("@" ++ "mod_a"), LuaEvent.pcall 0 1 0] } ∧
     tblGet (tblSet (heapTable stW 2) ("mod_a")
         (LuaValue.cclosure NativeId.identityClosure [LuaValue.num 1])) ("mod_a") =
       LuaValue.cclosure NativeId.identityClosure [LuaValue.num 1]) :=
  ⟨⟨rfl, rfl, rfl⟩,
   (load_module_success_registers_identity engW stW ("mod_a") ("return 1") 1 2
      (LuaValue.num 1) rfl rfl rfl rfl rfl).1,
   ((load_module_success_registers_identity engW stW ("mod_a") ("return 1") 1 2
      (LuaValue.num 1) rfl rfl rfl rfl rfl).2).1⟩

lemma override_print_step (eng : Engine) (s : LuaSt) (k : Nat)
    (hk : k < s.stack.length)
    (hts : tblGet (heapTable s s.globalsRef) ("tostring") =
      LuaValue.builtin BuiltinId.tostring) :
    lua_settop (lua_call eng (lua_pushvalue (lua_getfield s LUA_GLOBALSINDEX ("tostring"))
        ((k + 1 : Nat) : Int)) 1 1) (-2) = s ∧
    (lua_tolstring (lua_call eng (lua_pushvalue (lua_getfield s LUA_GLOBALSINDEX ("tostring"))
        ((k + 1 : Nat) : Int)) 1 1) (-1)).1 = eng.tostr (s.stack.getD k LuaValue.nil) := by
  have h1 : lua_getfield s LUA_GLOBALSINDEX ("tostring") =
      { s with stack := s.stack ++ [LuaValue.builtin BuiltinId.tostring] } := by
    simp [lua_getfield, resolveIdx, hts]
  have h2 : lua_pushvalue { s with stack := s.stack ++ [LuaValue.builtin BuiltinId.tostring] }
      ((k + 1 : Nat) : Int) =
      { s with stack := s.stack ++ [LuaValue.builtin BuiltinId.tostring,
          s.stack.getD k LuaValue.nil] } := by
    rw [lua_pushvalue]
    have hr : resolveIdx { s with stack := s.stack ++ [LuaValue.builtin BuiltinId.tostring] }
        ((k + 1 : Nat) : Int) = s.stack.getD k LuaValue.nil := by
      rw [resolveIdx, if_neg (by simp only [LUA_GLOBALSINDEX]; omega),
          if_neg (by simp only [LUA_GLOBALSINDEX]; omega), if_pos (by omega)]
      have ht : ((k + 1 : Nat) : Int).toNat - 1 = k := by omega
      rw [ht]
      exact getD_append_left _ _ _ _ hk
    rw [hr]
    simp
  have h3 : lua_call eng { s with stack := s.stack ++ [LuaValue.builtin BuiltinId.tostring,
      s.stack.getD k LuaValue.nil] } 1 1 =
      { s with stack := s.stack ++
          [LuaValue.str (eng.tostr (s.stack.getD k LuaValue.nil))] } := by
    have e1 : (s.stack ++ [LuaValue.builtin BuiltinId.tostring,
        s.stack.getD k LuaValue.nil]).length - Int.toNat 1 - 1 = s.stack.length := by
      simp
    have e2 : (s.stack ++ [LuaValue.builtin BuiltinId.tostring,
        s.stack.getD k LuaValue.nil]).length - Int.toNat 1 = s.stack.length + 1 := by
      simp
    have e3 : (s.stack ++ [LuaValue.builtin BuiltinId.tostring,
        s.stack.getD k LuaValue.nil]).getD s.stack.length LuaValue.nil =
        LuaValue.builtin BuiltinId.tostring :=
      getD_append_cons _ _ _ _
    have e4 : List.take s.stack.length (s.stack ++ [LuaValue.builtin BuiltinId.tostring,
        s.stack.getD k LuaValue.nil]) = s.stack :=
      List.take_left _ _
    have e5 : List.drop (s.stack.length + 1) (s.stack ++ [LuaValue.builtin BuiltinId.tostring,
        s.stack.getD k LuaValue.nil]) = [s.stack.getD k LuaValue.nil] := by
      rw [show s.stack ++ [LuaValue.builtin BuiltinId.tostring, s.stack.getD k LuaValue.nil] =
          (s.stack ++ [LuaValue.builtin BuiltinId.tostring]) ++ [s.stack.getD k LuaValue.nil]
          from by simp]
      rw [show s.stack.length + 1 = (s.stack ++ [LuaValue.builtin BuiltinId.tostring]).length
          from by simp]
      exact List.drop_left _ _
    rw [lua_call]
    dsimp only
    rw [e1, e2, e3, e4, e5]
    dsimp only
    simp [adjustResults]
  rw [h1, h2, h3]
  constructor
  · rw [lua_settop]
    rw [if_neg (by omega)]
    dsimp only
    rw [show ((s.stack ++ [LuaValue.str (eng.tostr (s.stack.getD k LuaValue.nil))]).length : Int)
        + (-2) + 1 = (s.stack.length : Int) from by
      simp only [List.length_append, List.length_cons, List.length_nil]
      push_cast
      omega]
    simp [List.take_left]
  · have hr1 : resolveIdx { s with stack := s.stack ++
        [LuaValue.str (eng.tostr (s.stack.getD k LuaValue.nil))] } (-1) =
        LuaValue.str (eng.tostr (s.stack.getD k LuaValue.nil)) := by
      rw [resolveIdx, if_neg (by simp only [LUA_GLOBALSINDEX]; omega),
          if_neg (by simp only [LUA_GLOBALSINDEX]; omega), if_neg (by omega),
          if_pos (by omega)]
      dsimp only
      rw [if_neg (by
        simp only [List.length_append, List.length_cons, List.length_nil]
        push_cast
        omega)]
      rw [show (((s.stack ++ [LuaValue.str (eng.tostr (s.stack.getD k
          LuaValue.nil))]).length : Int) + -1).toNat = s.stack.length from by
        simp only [List.length_append, List.length_cons, List.length_nil]
        omega]
      exact getD_append_cons _ _ _ _
    rw [lua_tolstring, hr1]

lemma override_print_go_spec (eng : Engine) :
    ∀ (fuel k : Nat) (s : LuaSt) (out : List String),
      k + fuel = s.stack.length →
      tblGet (heapTable s s.globalsRef) ("tostring") =
        LuaValue.builtin BuiltinId.tostring →
      override_print_go eng s (k + 1) fuel out =
        (s, out ++ (s.stack.drop k).map eng.tostr) := by
  intro fuel
  induction fuel with
  | zero =>
    intro k s out hk hts
    rw [override_print_go]
    rw [show k = s.stack.length from by omega, List.drop_length]
    simp
  | succ f ih =>
    intro k s out hk hts
    rw [override_print_go]
    obtain ⟨hstep1, hstep2⟩ := override_print_step eng s k (by omega) hts
    rw [hstep1, hstep2]
    rw [ih (k + 1) s (out ++ [eng.tostr (s.stack.getD k LuaValue.nil)]) (by omega) hts]
    have hklen : k < s.stack.length := by omega
    rw [List.drop_eq_getElem_cons hklen]
    rw [show s.stack.getD k LuaValue.nil = s.stack[k] from
      List.getD_eq_getElem _ _ hklen]
    simp
    have hklen2 : k < (List.map eng.tostr s.stack).length := by simpa using hklen
    rw [List.drop_eq_getElem_cons hklen2]
    simp

/-- Claim C7: override_print converts each of its arguments (stack positions
1..argc) to a string through the engine's own global tostring, joins the results
with single tab characters in original left-to-right order, emits exactly one log
line carrying the joined text, restores the stack, and returns zero results. -/
theorem override_print_spec (eng : Engine) (s : LuaSt)
    (hts : tblGet (heapTable s s.globalsRef) ("tostring") =
      LuaValue.builtin BuiltinId.tostring) :
    override_print eng s =
      ({ s with logs := s.logs ++
          ["[G] " ++ String.intercalate ("\t") (s.stack.map eng.tostr)] }, 0) := by
  have h := override_print_go_spec eng s.stack.length 0 s [] (by omega) hts
  rw [override_print]
  dsimp only
  norm_num at h
  rw [h]

/-- A concrete state whose globals hold the tostring builtin and whose stack holds
the three print arguments. -/
def stP : LuaSt where
  stack := [LuaValue.str ("a"), LuaValue.num 1, LuaValue.boolean true]
  heap := [[("tostring", LuaValue.builtin BuiltinId.tostring)]]
  globalsRef := 0
  upvals := []
  logs := []
  events := []

/-- Witness for override_print_spec on the concrete three-argument call. -/
theorem override_print_spec_witness :
    (tblGet (heapTable stP stP.globalsRef) ("tostring") =
       LuaValue.builtin BuiltinId.tostring) ∧
    override_print engW stP =
      ({ stP with logs := stP.logs ++
          ["[G] " ++ String.intercalate ("\t") (stP.stack.map engW.tostr)] }, 0) ∧
    (override_print engW stP).1.logs = ["[G] a\t1\ttrue"] :=
  ⟨rfl, override_print_spec engW stP rfl, rfl⟩
